import Mathlib

/-!
Shallow embedding of `src/wisp/renderer/core/renderers/radiance_pipeline_renderer.py`
(class `NeuralRadianceFieldPackedRenderer`), together with theorems checking the
natural-language specification of the renderer against the code.

The renderer state mirrors the attributes assigned in `__init__`, `pre_render`
and `post_render`.  Collaborators that live outside this file in the repository
(the `PackedRFTracer`, `RenderBuffer` and `FramePayload` classes) are modelled
at the granularity the adapter code observes: the tracer is a record carrying
its `num_steps` attribute plus an abstract per-batch tracing function, the
render buffer is a list of per-ray records with concatenation as accumulation,
and the payload is a record of the fields the adapter reads.
-/

namespace Wisp

/-- Modelled from the spec: the external `PackedRFTracer` collaborator, reduced to
the single attribute this adapter reads and writes (`num_steps`).  The tracing
callable itself is passed separately as a function argument where needed. -/
structure Tracer where
  num_steps : ℕ
deriving DecidableEq, Repr

/-- The `_last_state` dictionary: at most the two keys `num_steps` and `channels`
are ever written.  An outer `none` means the key is absent from the dictionary;
for the `channels` key the stored value is itself optional because
`self.channels` is `None` until the first `pre_render`. -/
structure LastState where
  num_steps : Option ℕ
  channels : Option (Option (List String))
deriving DecidableEq, Repr

/-- The fields of the external `FramePayload` read by this adapter.  The clear
color, a triple of Python floats compared with `==`, is modelled as a triple of
rationals (exact equality, as Python float `==` is exact). -/
structure Payload where
  render_res_x : ℕ
  render_res_y : ℕ
  camera_width : ℕ
  camera_height : ℕ
  camera_far : ℤ
  clear_color : ℚ × ℚ × ℚ
  interactive_mode : Bool
  channels : List String
deriving DecidableEq, Repr

/-- The mutable attributes of `NeuralRadianceFieldPackedRenderer`. -/
structure State where
  batch_size : ℕ
  num_steps : ℕ
  num_steps_movement : ℕ
  raymarch_type : String
  bg_color : String
  tracer : Tracer
  render_res_x : Option ℕ
  render_res_y : Option ℕ
  output_width : Option ℕ
  output_height : Option ℕ
  far_clipping : Option ℤ
  channels : Option (List String)
  last_state : LastState
deriving DecidableEq, Repr

/-- `__init__`: stores the batch size, defaults `num_steps` to 2 when `None`,
computes the movement step count `max(num_steps // 4, 1)`, defaults the
raymarch type to `voxel`, sets the background color to `black`, constructs a
tracer, and initialises resolutions, far clipping and channels to `None` and
the last-state dictionary to empty.  `tracerInitSteps` is modelled from the
spec: the tracer is an external collaborator and the constructor of this class
never assigns its step count, so its initial value is a parameter. -/
def mkRenderer (tracerInitSteps : ℕ) (batch_size : ℕ) (num_steps : Option ℕ)
    (raymarch_type : Option String) : State :=
  let ns := num_steps.getD 2
  { batch_size := batch_size
    num_steps := ns
    num_steps_movement := max (ns / 4) 1
    raymarch_type := raymarch_type.getD "voxel"
    bg_color := "black"
    tracer := { num_steps := tracerInitSteps }
    render_res_x := none
    render_res_y := none
    output_width := none
    output_height := none
    far_clipping := none
    channels := none
    last_state := { num_steps := none, channels := none } }

/-- `pre_render(payload)`: copies the render resolution, the camera output
dimensions and far plane, selects the background color from the clear color,
sets the tracer step count from the interactivity flag, and records the
requested channels. -/
def pre_render (s : State) (p : Payload) : State :=
  { s with
    render_res_x := some p.render_res_x
    render_res_y := some p.render_res_y
    output_width := some p.camera_width
    output_height := some p.camera_height
    far_clipping := some p.camera_far
    bg_color := if p.clear_color = ((0 : ℚ), (0 : ℚ), (0 : ℚ)) then "black" else "white"
    tracer := { num_steps := if p.interactive_mode then s.num_steps_movement else s.num_steps }
    channels := some p.channels }

/-- `needs_refresh(payload)`: `self._last_state.get('num_steps', 0) < self.num_steps
or self._last_state.get('channels') != self.channels`.  The payload argument is
not read by the method body. -/
def needs_refresh (s : State) (_p : Payload) : Bool :=
  decide (s.last_state.num_steps.getD 0 < s.num_steps) ||
    decide (s.last_state.channels.getD none ≠ s.channels)

/-- `post_render()`: writes the current tracer step count under the key
`num_steps` and the current channel set under the key `channels`. -/
def post_render (s : State) : State :=
  { s with last_state := { num_steps := some s.tracer.num_steps, channels := some s.channels } }

/-- Fuel-indexed worker for `rays.split(batch_size)`: repeatedly takes a prefix
of `bs` rays.  The fuel is instantiated with the ray count, which suffices
whenever `bs` is positive. -/
def splitGo {α : Type} (bs : ℕ) : ℕ → List α → List (List α)
  | 0, _ => []
  | _, [] => []
  | Nat.succ fuel, l@(_ :: _) => l.take bs :: splitGo bs fuel (l.drop bs)

/-- `rays.split(self.batch_size)`: the list of consecutive batches of at most
`bs` rays. -/
def raysSplit {α : Type} (bs : ℕ) (l : List α) : List (List α) :=
  splitGo bs l.length l

/-- Concatenation of a list of batches back into one ray list. -/
def joinAll {α : Type} (ls : List (List α)) : List α :=
  ls.foldr (fun a b => a ++ b) []

/-- One invocation of `self.tracer(self.nef, channels=..., rays=ray_batch,
lod_idx=None, raymarch_type=..., num_steps=..., bg_color=...)`: the arguments
the render loop passes, recorded per batch. -/
structure TracerCall (Ray : Type) where
  channels : Option (List String)
  rays : List Ray
  raymarch_type : String
  num_steps : ℕ
  bg_color : String
deriving DecidableEq, Repr

/-- The sequence of tracer invocations made by `render(rays)`: one call per
batch of `rays.split(self.batch_size)`, each passing the renderer channels,
the raymarch type, `self.num_steps` and the background color. -/
def renderCalls {Ray : Type} (s : State) (rays : List Ray) : List (TracerCall Ray) :=
  (raysSplit s.batch_size rays).map (fun b =>
    { channels := s.channels
      rays := b
      raymarch_type := s.raymarch_type
      num_steps := s.num_steps
      bg_color := s.bg_color })

/-- The accumulation loop of `render`: starting from the empty buffer
`RenderBuffer(hit=None)`, `rb += self.tracer(...)` for each batch.  Modelled
from the spec: the external `RenderBuffer.__add__` joins the per-ray records of
the two operands, so accumulation is concatenation of per-ray record lists. -/
def accumulate {Ray P : Type} (tracer : TracerCall Ray → List P)
    (calls : List (TracerCall Ray)) : List P :=
  calls.foldl (fun acc c => acc ++ tracer c) []

/-- A reshaped two-dimensional render buffer with its spatial dimensions. -/
structure RenderBuffer2D (P : Type) where
  height : ℕ
  width : ℕ
  data : List P
deriving DecidableEq, Repr

/-- Modelled from the spec: the external `RenderBuffer.reshape(y, x, -1)`,
which arranges the flat per-ray buffer as a `y` by `x` image and fails when
the element count does not match. -/
def reshapeRB {P : Type} (l : List P) (y x : ℕ) : Option (RenderBuffer2D P) :=
  if l.length = y * x then some { height := y, width := x, data := l } else none

/-- Modelled from the spec: the external `RenderBuffer.scale(size=(H, W))`,
which rescales an image to the target spatial size (nearest-neighbour
sampling; only the resulting dimensions matter to this development). -/
def scaleRB {P : Type} [Inhabited P] (hOut wOut : ℕ) (rb : RenderBuffer2D P) :
    RenderBuffer2D P :=
  { height := hOut
    width := wOut
    data := (List.range (hOut * wOut)).map (fun i =>
      rb.data.getD ((i / wOut * rb.height / hOut) * rb.width +
        (i % wOut * rb.width / wOut)) default) }

/-- `render(rays)`: accumulates the per-batch tracer results, reshapes the
buffer to `(render_res_y, render_res_x, -1)` and rescales it to
`(output_height, output_width)` when the two resolutions differ.  Returns
`none` when a resolution attribute is still `None` or the reshape fails. -/
def render {Ray P : Type} [Inhabited P] (tracer : TracerCall Ray → List P)
    (s : State) (rays : List Ray) : Option (RenderBuffer2D P) :=
  match s.render_res_y, s.render_res_x, s.output_height, s.output_width with
  | some y, some x, some hOut, some wOut =>
      (reshapeRB (accumulate tracer (renderCalls s rays)) y x).map (fun rb =>
        if x ≠ wOut ∨ y ≠ hOut then scaleRB hOut wOut rb else rb)
  | _, _, _, _ => none

end Wisp

namespace Wisp

lemma joinAll_nil {α : Type} : joinAll ([] : List (List α)) = [] := rfl

lemma joinAll_cons {α : Type} (a : List α) (ls : List (List α)) :
    joinAll (a :: ls) = a ++ joinAll ls := rfl

lemma splitGo_join {α : Type} (bs : ℕ) (hbs : 0 < bs) :
    ∀ (fuel : ℕ) (l : List α), l.length ≤ fuel → joinAll (splitGo bs fuel l) = l := by
  intro fuel
  induction fuel with
  | zero =>
      intro l hl
      have hnil : l = [] := by
        cases l with
        | nil => rfl
        | cons a t => simp at hl
      subst hnil
      cases bs with
      | zero => exact absurd hbs (by simp)
      | succ b => simp [splitGo, joinAll]
  | succ n ih =>
      intro l hl
      cases l with
      | nil =>
          cases bs with
          | zero => exact absurd hbs (by simp)
          | succ b => simp [splitGo, joinAll]
      | cons a t =>
          cases bs with
          | zero => exact absurd hbs (by simp)
          | succ b =>
              have hdrop : (List.drop (b + 1) (a :: t)).length ≤ n := by
                rw [List.length_drop]
                simp only [List.length_cons] at hl ⊢
                omega
              calc joinAll (splitGo (b + 1) (n + 1) (a :: t))
                  = List.take (b + 1) (a :: t) ++
                      joinAll (splitGo (b + 1) n (List.drop (b + 1) (a :: t))) := by
                    simp [splitGo, joinAll_cons]
                _ = List.take (b + 1) (a :: t) ++ List.drop (b + 1) (a :: t) := by
                    rw [ih _ hdrop]
                _ = a :: t := List.take_append_drop _ _

lemma splitGo_mem_length {α : Type} (bs : ℕ) :
    ∀ (fuel : ℕ) (l : List α), ∀ c ∈ splitGo bs fuel l, c.length ≤ bs := by
  intro fuel
  induction fuel with
  | zero =>
      intro l c hc
      simp [splitGo] at hc
  | succ n ih =>
      intro l c hc
      cases l with
      | nil => simp [splitGo] at hc
      | cons a t =>
          simp only [splitGo, List.mem_cons] at hc
          rcases hc with h | h
          · subst h
            simp [List.length_take]
          · exact ih _ _ h

lemma raysSplit_join {α : Type} {bs : ℕ} (hbs : 0 < bs) (l : List α) :
    joinAll (raysSplit bs l) = l :=
  splitGo_join bs hbs l.length l le_rfl

lemma raysSplit_mem_length {α : Type} (bs : ℕ) (l : List α) :
    ∀ c ∈ raysSplit bs l, c.length ≤ bs :=
  splitGo_mem_length bs l.length l

/-- C7: the batches produced by splitting the rays with the fixed positive
batch size partition the full ray set exactly once — concatenating the ray
lists of the tracer calls, in order, gives back exactly the input rays (so
every ray appears in exactly one batch, with no overlap and no omission) —
and each batch passed to the tracer holds at most `batch_size` rays. -/
theorem render_batches_partition {Ray : Type} (s : State) (rays : List Ray)
    (hbs : 0 < s.batch_size) :
    joinAll ((renderCalls s rays).map (fun c => c.rays)) = rays ∧
      ∀ c ∈ renderCalls s rays, c.rays.length ≤ s.batch_size := by
  constructor
  · have hmap : (renderCalls s rays).map (fun c => c.rays) = raysSplit s.batch_size rays := by
      simp only [renderCalls, List.map_map]
      exact List.map_id _
    rw [hmap]
    exact raysSplit_join hbs rays
  · intro c hc
    simp only [renderCalls, List.mem_map] at hc
    obtain ⟨b, hb, rfl⟩ := hc
    exact raysSplit_mem_length s.batch_size rays b hb

end Wisp

namespace Wisp

lemma hom_nil {Ray P : Type} (g : List Ray → List P)
    (hg : ∀ xs ys, g (xs ++ ys) = g xs ++ g ys) : g [] = [] := by
  have h := hg [] []
  simp only [List.nil_append] at h
  have hlen := congrArg List.length h
  simp only [List.length_append] at hlen
  have : (g []).length = 0 := by omega
  exact List.eq_nil_of_length_eq_zero this

lemma foldl_append_hom {Ray P : Type} (g : List Ray → List P)
    (hg : ∀ xs ys, g (xs ++ ys) = g xs ++ g ys) :
    ∀ (chunks : List (List Ray)) (acc : List P),
      chunks.foldl (fun a b => a ++ g b) acc = acc ++ g (joinAll chunks) := by
  intro chunks
  induction chunks with
  | nil =>
      intro acc
      simp [joinAll, hom_nil g hg]
  | cons c t ih =>
      intro acc
      simp only [List.foldl_cons, joinAll_cons, ih, hg, List.append_assoc]

/-- C4: for every ray set and every positive batch size, rendering the rays
split into batches and accumulating the per-batch tracer results with the
render-buffer addition yields a buffer equal to rendering all rays in a
single batch, before the reshape/rescale step.  The hypothesis `hg` is the
batch-compatibility of the tracer under render-buffer accumulation: tracing
the concatenation of two ray lists yields the accumulation of the two
per-batch buffers (the precise form of the associativity/commutativity of
render-buffer accumulation across batches for this code, where accumulation
joins per-ray records). -/
theorem render_batched_eq_single {Ray P : Type} (g : List Ray → List P)
    (s : State) (rays : List Ray) (hbs : 0 < s.batch_size)
    (hg : ∀ xs ys, g (xs ++ ys) = g xs ++ g ys) :
    accumulate (fun c => g c.rays) (renderCalls s rays) = g rays := by
  have hmap : (renderCalls s rays).foldl (fun acc c => acc ++ g c.rays) ([] : List P)
      = (raysSplit s.batch_size rays).foldl (fun acc b => acc ++ g b) [] := by
    rw [renderCalls, List.foldl_map]
  rw [accumulate, hmap, foldl_append_hom g hg, raysSplit_join hbs, List.nil_append]

/-- Concrete renderer state used by the witnesses: batch size 2, all other
fields at small concrete values. -/
def sampleState : State :=
  { batch_size := 2
    num_steps := 8
    num_steps_movement := 2
    raymarch_type := "voxel"
    bg_color := "black"
    tracer := { num_steps := 8 }
    render_res_x := some 2
    render_res_y := some 2
    output_width := some 2
    output_height := some 1
    far_clipping := some 10
    channels := some ["rgb"]
    last_state := { num_steps := none, channels := none } }

/-- Witness for C4: at batch size 2 with five rays and the identity tracer,
the batched accumulation reproduces the single-batch result. -/
theorem render_batched_eq_single_witness :
    0 < sampleState.batch_size ∧
      accumulate (fun c => c.rays) (renderCalls sampleState [0, 1, 2, 3, 4]) = [0, 1, 2, 3, 4] :=
  ⟨by decide, render_batched_eq_single (fun l => l) sampleState [0, 1, 2, 3, 4]
    (by decide) (fun _ _ => rfl)⟩

/-- Witness for C7: at batch size 2 with five rays, the batches join back to
the exact ray list and each batch has at most 2 rays. -/
theorem render_batches_partition_witness :
    0 < sampleState.batch_size ∧
      (joinAll ((renderCalls sampleState [0, 1, 2, 3, 4]).map (fun c => c.rays)) = [0, 1, 2, 3, 4] ∧
        ∀ c ∈ renderCalls sampleState [0, 1, 2, 3, 4], c.rays.length ≤ sampleState.batch_size) :=
  ⟨by decide, render_batches_partition sampleState [0, 1, 2, 3, 4] (by decide)⟩

/-- C2: `needs_refresh` returns true exactly when the committed step count of
the previous frame (0 when no frame has been committed) is strictly below the
configured target `num_steps`, or the channel set recorded in the last-state
cache differs from the currently requested channel set. -/
theorem needs_refresh_iff (s : State) (p : Payload) :
    needs_refresh s p = true ↔
      (s.last_state.num_steps.getD 0 < s.num_steps ∨
        s.last_state.channels.getD none ≠ s.channels) := by
  simp [needs_refresh]

/-- C6: `post_render` writes exactly the current tracer step count under the
key `num_steps` and the current channel set under the key `channels` in the
last-state cache, and leaves every other renderer field (batch size, step
counts, raymarch type, background color, tracer, resolutions, far clipping,
channels) unchanged. -/
theorem post_render_commits (s : State) :
    (post_render s).last_state.num_steps = some s.tracer.num_steps ∧
      (post_render s).last_state.channels = some s.channels ∧
      (post_render s).batch_size = s.batch_size ∧
      (post_render s).num_steps = s.num_steps ∧
      (post_render s).num_steps_movement = s.num_steps_movement ∧
      (post_render s).raymarch_type = s.raymarch_type ∧
      (post_render s).bg_color = s.bg_color ∧
      (post_render s).tracer = s.tracer ∧
      (post_render s).render_res_x = s.render_res_x ∧
      (post_render s).render_res_y = s.render_res_y ∧
      (post_render s).output_width = s.output_width ∧
      (post_render s).output_height = s.output_height ∧
      (post_render s).far_clipping = s.far_clipping ∧
      (post_render s).channels = s.channels :=
  ⟨rfl, rfl, rfl, rfl, rfl, rfl, rfl, rfl, rfl, rfl, rfl, rfl, rfl, rfl⟩

end Wisp

namespace Wisp

/-- C10: `pre_render` sets the background color to black exactly when the
clear color of the payload equals the zero triple, and to white for every
other clear color. -/
theorem bg_color_selection (s : State) (p : Payload) :
    ((pre_render s p).bg_color = "black" ↔ p.clear_color = ((0 : ℚ), (0 : ℚ), (0 : ℚ))) ∧
      ((pre_render s p).bg_color = "white" ↔ p.clear_color ≠ ((0 : ℚ), (0 : ℚ), (0 : ℚ))) := by
  have hite : (pre_render s p).bg_color =
      if p.clear_color = ((0 : ℚ), (0 : ℚ), (0 : ℚ)) then "black" else "white" := rfl
  by_cases hc : p.clear_color = ((0 : ℚ), (0 : ℚ), (0 : ℚ))
  · have hbg : (pre_render s p).bg_color = "black" := by rw [hite, if_pos hc]
    rw [hbg]
    exact ⟨⟨fun _ => hc, fun _ => rfl⟩,
      ⟨fun hw => absurd hw (by decide), fun hne => absurd hc hne⟩⟩
  · have hbg : (pre_render s p).bg_color = "white" := by rw [hite, if_neg hc]
    rw [hbg]
    exact ⟨⟨fun hb => absurd hb (by decide), fun h0 => absurd h0 hc⟩,
      ⟨fun _ => hc, fun _ => rfl⟩⟩

/-- Counterexample to C5 as stated: immediately after construction (with the
modelled external tracer default of 0, target step count 8), the tracer step
count equals neither the interactive-mode value `max(num_steps // 4, 1) = 2`
nor the static-mode value `num_steps = 8` — the constructor never assigns the
tracer step count, and it takes no interactivity flag at all; the
mode-dependent selection only happens inside `pre_render`. -/
theorem construction_steps_counterexample :
    (mkRenderer 0 16384 (some 8) none).tracer.num_steps ≠ max (8 / 4) 1 ∧
      (mkRenderer 0 16384 (some 8) none).tracer.num_steps ≠ 8 := by
  decide

/-- C5 (amended): on construction the renderer selects a tracer instance and
computes the configured step count `num_steps` and the lower movement step
count `max(num_steps // 4, 1)`; the mode-dependent selection happens at each
`pre_render`: in interactive mode the tracer step count is set to
`max(num_steps // 4, 1)`, and in static mode to `num_steps`. -/
theorem tracer_step_selection (tis bs ns : ℕ) (rt : Option String) (p : Payload) :
    (mkRenderer tis bs (some ns) rt).num_steps = ns ∧
      (mkRenderer tis bs (some ns) rt).num_steps_movement = max (ns / 4) 1 ∧
      (pre_render (mkRenderer tis bs (some ns) rt) p).tracer.num_steps =
        if p.interactive_mode then max (ns / 4) 1 else ns :=
  ⟨rfl, rfl, rfl⟩

/-- C9: the step count passed to every tracer invocation made by `render` is
the statically configured `num_steps`, whatever mode the last `pre_render` ran
in; the step count committed by `post_render` is instead the tracer attribute
set by `pre_render`, so after an interactive `pre_render` with
`num_steps_movement` different from `num_steps` the committed step count
differs from the step count actually used for tracing. -/
theorem steps_used_vs_committed {Ray : Type} (s : State) (p : Payload) (rays : List Ray) :
    (∀ c ∈ renderCalls (pre_render s p) rays, c.num_steps = s.num_steps) ∧
      (post_render (pre_render s p)).last_state.num_steps =
        some (if p.interactive_mode then s.num_steps_movement else s.num_steps) ∧
      (p.interactive_mode = true → s.num_steps_movement ≠ s.num_steps →
        (post_render (pre_render s p)).last_state.num_steps ≠ some s.num_steps) := by
  refine ⟨?_, rfl, ?_⟩
  · intro c hc
    simp only [renderCalls, List.mem_map] at hc
    obtain ⟨b, hb, rfl⟩ := hc
    rfl
  · intro hi hne heq
    simp only [post_render, pre_render, hi, if_true, Option.some.injEq] at heq
    exact hne heq

/-- Concrete interactive payload used by witnesses and counterexamples. -/
def samplePayload : Payload :=
  { render_res_x := 2
    render_res_y := 2
    camera_width := 2
    camera_height := 1
    camera_far := 10
    clear_color := ((0 : ℚ), (0 : ℚ), (0 : ℚ))
    interactive_mode := true
    channels := ["rgb"] }

/-- The same payload in static (non-interactive) mode. -/
def staticPayload : Payload :=
  { samplePayload with interactive_mode := false }

/-- The same payload with a different channel set. -/
def altPayload : Payload :=
  { samplePayload with channels := ["depth"] }

/-- Witness for C9: with the sample state (configured steps 8, movement
steps 2) and an interactive payload, every tracer call uses 8 steps, the
committed value is 2, and the committed value differs from the used value. -/
theorem steps_used_vs_committed_witness :
    (∀ c ∈ renderCalls (pre_render sampleState samplePayload) ([0, 1, 2] : List ℕ),
        c.num_steps = sampleState.num_steps) ∧
      (post_render (pre_render sampleState samplePayload)).last_state.num_steps ≠
        some sampleState.num_steps :=
  ⟨(steps_used_vs_committed sampleState samplePayload [0, 1, 2]).1,
    (steps_used_vs_committed sampleState samplePayload [0, 1, 2]).2.2 rfl (by decide)⟩

/-- Counterexample to C3 as stated: with the default construction
(`num_steps = 2`, movement steps 1) and an interactive payload, a full
`pre_render`/`post_render` cycle with an unchanged channel set is followed by
`needs_refresh` returning true, not false: the committed step count 1 is below
the configured target 2. -/
theorem refresh_after_cycle_counterexample :
    needs_refresh (post_render (pre_render (mkRenderer 0 16384 none none) samplePayload))
      samplePayload = true := by
  decide

/-- C3 (amended): after `pre_render(p)` followed by `post_render()` with the
channel set unchanged, `needs_refresh` returns false provided `p` is not in
interactive mode (in interactive mode the committed movement step count can
stay below `num_steps`, keeping `needs_refresh` true); and after `pre_render`
runs with a payload whose channel set differs from the last committed one,
`needs_refresh` returns true immediately, before the next `post_render`. -/
theorem refresh_lifecycle (s : State) (p p' q q' : Payload) :
    (p.interactive_mode = false →
        needs_refresh (post_render (pre_render s p)) q = false) ∧
      (p'.channels ≠ p.channels →
        needs_refresh (pre_render (post_render (pre_render s p)) p') q' = true) := by
  constructor
  · intro hi
    simp [needs_refresh, post_render, pre_render, hi]
  · intro hne
    have hsome : (some p.channels : Option (List String)) ≠ some p'.channels := by
      intro hEq
      exact hne (Option.some.inj hEq).symm
    simp [needs_refresh, post_render, pre_render, hsome]

/-- Witness for C3 (amended): a static-mode cycle on the sample state yields
`needs_refresh = false`, and a subsequent `pre_render` with a changed channel
set yields `needs_refresh = true`. -/
theorem refresh_lifecycle_witness :
    needs_refresh (post_render (pre_render sampleState staticPayload)) samplePayload = false ∧
      needs_refresh (pre_render (post_render (pre_render sampleState staticPayload)) altPayload)
        samplePayload = true :=
  ⟨(refresh_lifecycle sampleState staticPayload altPayload samplePayload samplePayload).1 rfl,
    (refresh_lifecycle sampleState staticPayload altPayload samplePayload samplePayload).2
      (by decide)⟩

lemma render_eq {Ray P : Type} [Inhabited P] (tracer : TracerCall Ray → List P)
    (s : State) (rays : List Ray) (y x hOut wOut : ℕ)
    (hy : s.render_res_y = some y) (hx : s.render_res_x = some x)
    (hH : s.output_height = some hOut) (hW : s.output_width = some wOut) :
    render tracer s rays =
      (reshapeRB (accumulate tracer (renderCalls s rays)) y x).map (fun rb =>
        if x ≠ wOut ∨ y ≠ hOut then scaleRB hOut wOut rb else rb) := by
  unfold render
  rw [hy, hx, hH, hW]

/-- C1: whenever the render and output resolutions have been set and `render`
returns a buffer, that buffer has spatial dimensions exactly
`(output_height, output_width)`, regardless of the internal render resolution
and of the batch size: the accumulated buffer is reshaped to
`(render_res_y, render_res_x)` and rescaled to `(output_height, output_width)`
whenever the two resolutions differ. -/
theorem render_output_dims {Ray P : Type} [Inhabited P] (tracer : TracerCall Ray → List P)
    (s : State) (rays : List Ray) (y x hOut wOut : ℕ) (rb : RenderBuffer2D P)
    (hy : s.render_res_y = some y) (hx : s.render_res_x = some x)
    (hH : s.output_height = some hOut) (hW : s.output_width = some wOut)
    (_hrays : rays ≠ []) (h : render tracer s rays = some rb) :
    rb.height = hOut ∧ rb.width = wOut := by
  rw [render_eq tracer s rays y x hOut wOut hy hx hH hW] at h
  cases hacc : reshapeRB (accumulate tracer (renderCalls s rays)) y x with
  | none =>
      rw [hacc] at h
      simp at h
  | some rb0 =>
      have hrb0 : rb0.height = y ∧ rb0.width = x := by
        unfold reshapeRB at hacc
        split_ifs at hacc with hlen
        rw [Option.some.injEq] at hacc
        subst hacc
        exact ⟨rfl, rfl⟩
      rw [hacc] at h
      simp only [Option.map_some', Option.some.injEq] at h
      by_cases hcond : x ≠ wOut ∨ y ≠ hOut
      · rw [if_pos hcond] at h
        subst h
        exact ⟨rfl, rfl⟩
      · rw [if_neg hcond] at h
        subst h
        push_neg at hcond
        exact ⟨hrb0.1.trans hcond.2, hrb0.2.trans hcond.1⟩

/-- Witness for C1: the sample state has render resolution 2 by 2 and output
resolution 1 by 2; rendering four rays with a constant tracer returns a buffer
of height 1 and width 2. -/
theorem render_output_dims_witness :
    sampleState.render_res_y = some 2 ∧ sampleState.render_res_x = some 2 ∧
      sampleState.output_height = some 1 ∧ sampleState.output_width = some 2 ∧
      ([0, 1, 2, 3] : List ℕ) ≠ [] ∧
      ((⟨1, 2, [0, 0]⟩ : RenderBuffer2D ℕ).height = 1 ∧
        (⟨1, 2, [0, 0]⟩ : RenderBuffer2D ℕ).width = 2) :=
  ⟨rfl, rfl, rfl, rfl, by decide,
    render_output_dims (fun c => c.rays.map (fun _ => (0 : ℕ))) sampleState [0, 1, 2, 3]
      2 2 1 2 ⟨1, 2, [0, 0]⟩ rfl rfl rfl rfl (by decide) (by decide)⟩

end Wisp
